import Mathlib

/-!
Verification of the process-locator/actuator core of BlueTeamRust
(`src/utils/pid.rs`).

The module defines a record `PIDInfo` and, per target platform, the
operations `new` (locate), `terminate` and `quarantine`, plus a `Display`
implementation.  We embed the three platform strategies as pure functions:

* the data sources (pseudo-filesystem reads, `procstat` stdout, the
  WMI query stdout) become explicit arguments (`Nat → Option String`,
  `none` = the read/invocation failed);
* subprocess execution in the actuators becomes a `Cmd → Bool` oracle
  giving each spawned command's exit-status success, and the actuators
  return the trace of commands they spawned together with the
  diagnostics they logged;
* a Rust `panic!`/`unwrap` on `None` is modelled as an explicit error
  value (`Option.none` for the parser, `FbResult.panic` for the
  FreeBSD lookup).

Rust string primitives (`split`, `split_once`, `trim`,
`split_whitespace`, `format!` with `{:?}`) are re-implemented
structurally on the character list so that every definition reduces in
the kernel.
-/

set_option maxRecDepth 8192

namespace BlueTeam

/-- The record produced by the locator (`pub struct PIDInfo`); `pid: u64`
is modelled as `Nat` (it is only ever rendered in decimal, never
arithmetically combined). -/
structure PIDInfo where
  pid : Nat
  exe : String
  root : String
  cwd : String
  cmdline : String
  environ : String
deriving DecidableEq

/-- Rust `str::split(c)` on the character list: every occurrence of `c`
separates two (possibly empty) pieces; the result is never empty. -/
def splitCharL (c : Char) : List Char → List (List Char)
  | [] => [[]]
  | x :: xs =>
    if x = c then [] :: splitCharL c xs
    else
      match splitCharL c xs with
      | [] => [[x]]
      | y :: ys => (x :: y) :: ys

/-- Rust `str::split(c)` lifted to strings. -/
def splitChar (s : String) (c : Char) : List String :=
  (splitCharL c s.data).map String.mk

/-- Rust `str::split_once(c)` on the character list: the pieces strictly
before and strictly after the first occurrence of `c`, if any. -/
def splitOnceL (c : Char) : List Char → Option (List Char × List Char)
  | [] => none
  | x :: xs =>
    if x = c then some ([], xs)
    else (splitOnceL c xs).map (fun p => (x :: p.1, p.2))

/-- Rust `str::split_once(c)` lifted to strings. -/
def splitOnce (s : String) (c : Char) : Option (String × String) :=
  (splitOnceL c s.data).map (fun p => (String.mk p.1, String.mk p.2))

/-- Rust `str::trim` on the character list. -/
def trimL (l : List Char) : List Char :=
  ((l.dropWhile Char.isWhitespace).reverse.dropWhile Char.isWhitespace).reverse

/-- Rust `str::trim` lifted to strings. -/
def trimStr (s : String) : String :=
  String.mk (trimL s.data)

/-- Splitting at every character satisfying `p` (used for
`split_whitespace`, which then discards empty pieces). -/
def splitPredL (p : Char → Bool) : List Char → List (List Char)
  | [] => [[]]
  | x :: xs =>
    if p x then [] :: splitPredL p xs
    else
      match splitPredL p xs with
      | [] => [[x]]
      | y :: ys => (x :: y) :: ys

/-- Rust `str::split_whitespace`: whitespace-separated tokens, empty
pieces dropped. -/
def wsTokens (s : String) : List String :=
  ((splitPredL Char.isWhitespace s.data).filter (fun t => !t.isEmpty)).map String.mk

/-- `split_whitespace().last()` as used on the `procstat -b` / `procstat
pwdx` output (`.unwrap()` of the result is modelled by the caller). -/
def lastToken (s : String) : Option String :=
  (wsTokens s).getLast?

/-- One character of Rust `format!("\x7b:?\x7d", s)` output for a string:
the common escapes and the `\u` escape for other control characters.
(For printable non-ASCII characters Rust keeps the character, as we do
here; unprintable non-ASCII characters above U+007F are not produced by
any input considered in this development.) -/
def escapeDebugChar (c : Char) : String :=
  if c = '"' then "\\\""
  else if c = '\\' then "\\\\"
  else if c = '\n' then "\\n"
  else if c = '\t' then "\\t"
  else if c = '\r' then "\\r"
  else if c.toNat < 32 ∨ c.toNat = 127 then
    "\\u\x7b" ++ String.mk (Nat.toDigits 16 c.toNat) ++ "\x7d"
  else String.singleton c

/-- Rust `format!("\x7b:?\x7d", s)` for a `String`: the escaped contents
between double quotes. -/
def rustDebugStr (s : String) : String :=
  "\"" ++ String.join (s.data.map escapeDebugChar) ++ "\""

/-- Rust `format!("\x7b:?\x7d", v)` for a `Vec<String>`. -/
def rustDebugList (l : List String) : String :=
  "[" ++ String.intercalate ", " (l.map rustDebugStr) ++ "]"

/-- One line of `procstat pargs`/`penv` output as consumed by the FreeBSD
lookup: `line.split_once(':')` followed by `.1.trim().to_owned()`;
`none` means the source's `.unwrap()` panics. -/
def pargsValue (line : String) : Option String :=
  (splitOnce line ':').map (fun p => trimStr p.2)

/-- The FreeBSD per-line loop: push the parsed value of every line in
order, stopping with `none` (the panic) at the first line without a
colon. -/
def parseAll : List String → Option (List String)
  | [] => some []
  | l :: rest =>
    match pargsValue l with
    | none => none
    | some v => (parseAll rest).map (fun vs => v :: vs)

/-- The full FreeBSD block parser: split the tool output on `'\n'`,
parse every line, then `Vec::remove(0)` discards the header line
(modelled by `List.tail?`, whose `none` case is `remove`'s panic on an
empty vector — unreachable, since the split is never empty). -/
def freebsdParseBlock (full : String) : Option (List String) :=
  (parseAll (splitChar full '\n')).bind List.tail?

/-- Total version of `pargsValue` used to state what the parser returns
on well-formed lines. -/
def lineValue (l : String) : String :=
  (pargsValue l).getD ""

/-- The Linux data source: the five `/proc/<pid>/...` reads (three
`read_link`s rendered via `.display().to_string()` and two
`read_to_string`s); `none` = the read returned `Err`. -/
structure LinuxProc where
  exeLink : Nat → Option String
  rootLink : Nat → Option String
  cwdLink : Nat → Option String
  cmdlineFile : Nat → Option String
  environFile : Nat → Option String

/-- `PIDInfo::new` on Linux: five reads chained with `?`; the first
failing read aborts the lookup. -/
def Linux.new (pid : Nat) (src : LinuxProc) : Option PIDInfo :=
  match src.exeLink pid with
  | none => none
  | some exe =>
    match src.rootLink pid with
    | none => none
    | some root =>
      match src.cwdLink pid with
      | none => none
      | some cwd =>
        match src.cmdlineFile pid with
        | none => none
        | some cmdline =>
          match src.environFile pid with
          | none => none
          | some environ => some ⟨pid, exe, root, cwd, cmdline, environ⟩

/-- The FreeBSD data source: stdout of the four `procstat` invocations
(`-b`, `pwdx`, `pargs`, `penv`), after `String::from_utf8_lossy`;
`none` = the invocation exited with a non-success status. -/
structure FreebsdProcstat where
  exeOut : Nat → Option String
  cwdOut : Nat → Option String
  pargsOut : Nat → Option String
  penvOut : Nat → Option String

/-- Outcome of the FreeBSD lookup: `ok` (the `Some(PIDInfo)` path),
`failure` (the logged `return None` path taken on a non-success exit
status), or `panic` (an `.unwrap()` panic on malformed tool output). -/
inductive FbResult where
  | ok : PIDInfo → FbResult
  | failure : FbResult
  | panic : FbResult
deriving DecidableEq

/-- `PIDInfo::new` on FreeBSD, in source order: for each facet, check the
exit status (else `return None`), parse the stdout (else panic);
`root` is hard-coded to the `"N/A"` sentinel, `cmdline`/`environ` are
the `format!("\x7b:?\x7d", ...)` rendering of the parsed vectors. -/
def Freebsd.new (pid : Nat) (src : FreebsdProcstat) : FbResult :=
  match src.exeOut pid with
  | none => .failure
  | some exeFull =>
    match lastToken exeFull with
    | none => .panic
    | some exe =>
      match src.cwdOut pid with
      | none => .failure
      | some cwdFull =>
        match lastToken cwdFull with
        | none => .panic
        | some cwd =>
          match src.pargsOut pid with
          | none => .failure
          | some pargsFull =>
            match freebsdParseBlock pargsFull with
            | none => .panic
            | some cmdline =>
              match src.penvOut pid with
              | none => .failure
              | some penvFull =>
                match freebsdParseBlock penvFull with
                | none => .panic
                | some environ =>
                  .ok ⟨pid, exe, "N/A", cwd, rustDebugList cmdline,
                        rustDebugList environ⟩

/-- The Windows data source: stdout of the single PowerShell
`Get-WmiObject Win32_Process` query for the pid; `none` = non-success
exit status. -/
structure WinQuery where
  queryOut : Nat → Option String

/-- The Windows per-line step: `split_once(':')`; on `Some`, trim key and
value and assign `exe`/`cmdline` on an exact label match, ignoring
unrecognized labels; on `None`, leave the record unchanged. -/
def Windows.applyLine (out : PIDInfo) (comp : String) : PIDInfo :=
  match splitOnce comp ':' with
  | some keyVal =>
    let key := trimStr keyVal.1
    let val := trimStr keyVal.2
    if key = "ExecutablePath" then { out with exe := val }
    else if key = "CommandLine" then { out with cmdline := val }
    else out
  | none => out

/-- Drop `pre` from the front of `l` if it is literally there. -/
def dropPre : List Char → List Char → Option (List Char)
  | [], l => some l
  | _ :: _, [] => none
  | p :: ps, x :: xs => if x = p then dropPre ps xs else none

/-- Split `l` around the first occurrence of `sep`, if any. -/
def breakSeq (sep : List Char) : List Char → Option (List Char × List Char)
  | [] => none
  | x :: xs =>
    match dropPre sep (x :: xs) with
    | some rest => some ([], rest)
    | none => (breakSeq sep xs).map (fun p => (x :: p.1, p.2))

/-- Fuelled worker for `splitSeq`; for a non-empty separator the fuel
`l.length` always suffices, since every found occurrence strictly
shortens the remainder. -/
def splitSeqGo (sep : List Char) : Nat → List Char → List (List Char)
  | 0, l => [l]
  | fuel + 1, l =>
    match breakSeq sep l with
    | none => [l]
    | some (pre, post) => pre :: splitSeqGo sep fuel post

/-- Rust `str::split(pat)` for a multi-character pattern (used with
`"\r\n"` by the Windows strategy). -/
def splitSeq (s : String) (sep : String) : List String :=
  (splitSeqGo sep.data (s.data.length) s.data).map String.mk

/-- The record the Windows lookup starts from: every facet is the
`"N/A"` sentinel until (and unless) the query output overwrites it. -/
def Windows.initRec (pid : Nat) : PIDInfo :=
  ⟨pid, "N/A", "N/A", "N/A", "N/A", "N/A"⟩

/-- `PIDInfo::new` on Windows: one query; on success split the stdout on
`"\r\n"` and fold the label/value assignments over the initial
sentinel record. -/
def Windows.new (pid : Nat) (src : WinQuery) : Option PIDInfo :=
  match src.queryOut pid with
  | none => none
  | some s => some ((splitSeq s "\r\n").foldl Windows.applyLine (Windows.initRec pid))

/-- One spawned external command (program and argument vector), as passed
to `exec_cmd`. -/
structure Cmd where
  prog : String
  args : List String
deriving DecidableEq

/-- Observable behaviour of one actuator call: the commands it spawned in
order, the diagnostics it logged via `error!`, and what it printed to
stdout.  The exit status of each spawned command is supplied by a
`Cmd → Bool` oracle (spawn itself is assumed to succeed, as the
source's `.unwrap()`s do). -/
structure ActionTrace where
  invoked : List Cmd
  errors : List String
  printed : List String
deriving DecidableEq

/-- The `kill -9 <pid>` command of `PIDInfo::terminate` (Linux). -/
def Linux.killCmd (info : PIDInfo) : Cmd :=
  ⟨"kill", ["-9", toString info.pid]⟩

/-- `PIDInfo::terminate` on Linux: one `kill -9 <pid>`; on a non-success
status log a diagnostic naming the pid; always returns. -/
def Linux.terminate (info : PIDInfo) (run : Cmd → Bool) : ActionTrace :=
  { invoked := [Linux.killCmd info]
    errors :=
      if run (Linux.killCmd info) then []
      else ["Failed to terminate PID " ++ toString info.pid]
    printed := [] }

/-- The `mv <exe> ./quarantine` command of `PIDInfo::quarantine` (Linux). -/
def Linux.mvCmd (info : PIDInfo) : Cmd :=
  ⟨"mv", [info.exe, "./quarantine"]⟩

/-- The `chmod 444 <exe>` command of `PIDInfo::quarantine` (Linux). -/
def Linux.chmodCmd (info : PIDInfo) : Cmd :=
  ⟨"chmod", ["444", info.exe]⟩

/-- `PIDInfo::quarantine` on Linux: unconditionally run `mv` then
`chmod`, logging a separate diagnostic for each failing step. -/
def Linux.quarantine (info : PIDInfo) (run : Cmd → Bool) : ActionTrace :=
  { invoked := [Linux.mvCmd info, Linux.chmodCmd info]
    errors :=
      (if run (Linux.mvCmd info) then []
       else ["Failed to move exe " ++ info.exe]) ++
      (if run (Linux.chmodCmd info) then []
       else ["Failed to chmod exe " ++ info.exe])
    printed := [] }

/-- The `taskkill /PID <pid> /F` command of `PIDInfo::terminate`
(Windows). -/
def Windows.killCmd (info : PIDInfo) : Cmd :=
  ⟨"taskkill", ["/PID", toString info.pid, "/F"]⟩

/-- `PIDInfo::terminate` on Windows: one `taskkill /PID <pid> /F`; on a
non-success status the source logs `"Failed to terminate PID \x7b\x7d"`
formatted with `&self.exe` (not the pid). -/
def Windows.terminate (info : PIDInfo) (run : Cmd → Bool) : ActionTrace :=
  { invoked := [Windows.killCmd info]
    errors :=
      if run (Windows.killCmd info) then []
      else ["Failed to terminate PID " ++ info.exe]
    printed := [] }

/-- The `move <exe> .\quarantine` command of `PIDInfo::quarantine`
(Windows). -/
def Windows.mvCmd (info : PIDInfo) : Cmd :=
  ⟨"move", [info.exe, ".\\quarantine"]⟩

/-- `PIDInfo::quarantine` on Windows: run `move` (logging on failure),
then print an advisory; no permission-stripping command is spawned. -/
def Windows.quarantine (info : PIDInfo) (run : Cmd → Bool) : ActionTrace :=
  { invoked := [Windows.mvCmd info]
    errors :=
      if run (Windows.mvCmd info) then []
      else ["Failed to move exe " ++ info.exe]
    printed := ["Please revoke all execution access, or get this thing out of here"] }

/-- The `Display` implementation: `"\x7b\x7d | \x7b\x7d | \x7b\x7d | \x7b\x7d | \x7b\x7d"`
over pid, exe, root, cwd, cmdline (environ omitted). -/
def PIDInfo.display (info : PIDInfo) : String :=
  toString info.pid ++ " | " ++ info.exe ++ " | " ++ info.root ++ " | "
    ++ info.cwd ++ " | " ++ info.cmdline

/-! ### Concrete fixtures (simulated data sources and records) -/

/-- A fully available Linux data source for pid 1234. -/
def procA : LinuxProc :=
  ⟨fun _ => some "/tmp/evil", fun _ => some "/", fun _ => some "/tmp",
   fun _ => some "evil", fun _ => some "PATH=/bin"⟩

/-- The same observable contents as `procA` at pid 1234, written as a
different function (an unchanged data source between two calls). -/
def procB : LinuxProc :=
  ⟨fun p => if p = 1234 then some "/tmp/evil" else none,
   fun p => if p = 1234 then some "/" else none,
   fun p => if p = 1234 then some "/tmp" else none,
   fun p => if p = 1234 then some "evil" else none,
   fun p => if p = 1234 then some "PATH=/bin" else none⟩

/-- A Linux data source whose `/proc/<pid>/cmdline` read fails. -/
def procFail : LinuxProc :=
  ⟨fun _ => some "/tmp/evil", fun _ => some "/", fun _ => some "/tmp",
   fun _ => none, fun _ => some "PATH=/bin"⟩

/-- The simulated `procstat pargs` stdout used below. -/
def pargsEvil : String := "h: x\na: evil\na: --flag"

/-- A fully available FreeBSD data source for pid 1234: every invocation
succeeds and every output line of the block outputs carries a colon. -/
def freebsdEvilSrc : FreebsdProcstat :=
  ⟨fun _ => some "PID COMM\n1234 /tmp/evil", fun _ => some "PID CWD\n1234 /tmp",
   fun _ => some pargsEvil, fun _ => some "h: x\ne: PATH=/bin"⟩

/-- A FreeBSD data source whose `procstat pwdx` invocation exits
non-success. -/
def fbFail : FreebsdProcstat :=
  ⟨fun _ => some "PID COMM\n1 /x", fun _ => none, fun _ => some "h: x",
   fun _ => some "h: x"⟩

/-- A Windows query source answering with the two recognized labels. -/
def winSrcA : WinQuery :=
  ⟨fun _ => some "ExecutablePath : C:\\x.exe\r\nCommandLine : x /c\r\n"⟩

/-- The record of spec Scenario A. -/
def evilRec : PIDInfo := ⟨1234, "/tmp/evil", "/", "/tmp", "evil", "PATH=/bin"⟩

/-- An exit-status oracle under which exactly the `mv` step fails. -/
def runMvFails : Cmd → Bool := fun c => !(c.prog == "mv")

/-! ### Helper lemmas -/

theorem mk_data (s : String) : String.mk s.data = s := rfl

theorem splitOnceL_isSome (c : Char) (l : List Char) :
    (splitOnceL c l).isSome ↔ c ∈ l := by
  induction l with
  | nil => simp [splitOnceL]
  | cons x xs ih =>
    by_cases hx : x = c
    · subst hx; simp [splitOnceL]
    · cases h : splitOnceL c xs with
      | none =>
        rw [h] at ih
        simp [splitOnceL, hx, h] at ih ⊢
        tauto
      | some p =>
        rw [h] at ih
        simp [splitOnceL, hx, h] at ih ⊢
        tauto

theorem splitOnce_isSome (s : String) (c : Char) :
    (splitOnce s c).isSome ↔ c ∈ s.data := by
  rw [← splitOnceL_isSome c s.data]
  unfold splitOnce
  cases h : splitOnceL c s.data <;> simp [h]

theorem splitOnceL_append (c : Char) (pre suf : List Char) (h : c ∉ pre) :
    splitOnceL c (pre ++ c :: suf) = some (pre, suf) := by
  induction pre with
  | nil => simp [splitOnceL]
  | cons x xs ih =>
    have hx : ¬ x = c := fun e => h (by simp [e])
    rw [List.cons_append]
    unfold splitOnceL
    rw [if_neg hx, ih (fun hm => h (List.mem_cons_of_mem _ hm))]
    rfl

theorem splitOnce_append (pre suf : String) (h : ':' ∉ pre.data) :
    splitOnce (pre ++ ":" ++ suf) ':' = some (pre, suf) := by
  unfold splitOnce
  have hd : (pre ++ ":" ++ suf).data = pre.data ++ ':' :: suf.data := by
    rw [String.data_append, String.data_append]
    have hc : (":" : String).data = [':'] := rfl
    rw [hc, List.append_assoc]
    rfl
  rw [hd, splitOnceL_append ':' pre.data suf.data h]
  simp [mk_data]

theorem pargsValue_isSome_iff (l : String) :
    (pargsValue l).isSome ↔ ':' ∈ l.data := by
  rw [← splitOnce_isSome l ':']
  unfold pargsValue
  cases h : splitOnce l ':' <;> simp [h]

theorem pargsValue_eq_none_iff (l : String) :
    pargsValue l = none ↔ ':' ∉ l.data := by
  rw [← pargsValue_isSome_iff]
  cases h : pargsValue l <;> simp [h]

theorem parseAll_eq_none_of_mem (L : List String) (l : String) (hl : l ∈ L)
    (h : pargsValue l = none) : parseAll L = none := by
  induction L with
  | nil => cases hl
  | cons a rest ih =>
    rcases List.mem_cons.mp hl with rfl | hm
    · simp [parseAll, h]
    · unfold parseAll
      cases hp : pargsValue a
      · rfl
      · rw [ih hm]; rfl

theorem parseAll_eq_map (L : List String) (h : ∀ l ∈ L, (pargsValue l).isSome) :
    parseAll L = some (L.map lineValue) := by
  induction L with
  | nil => rfl
  | cons a rest ih =>
    have ha := h a (List.mem_cons_self a rest)
    cases hp : pargsValue a with
    | none => rw [hp] at ha; simp at ha
    | some v =>
      unfold parseAll
      rw [hp, ih (fun l hl => h l (List.mem_cons_of_mem _ hl))]
      simp [lineValue, hp]

theorem splitCharL_ne_nil (c : Char) (l : List Char) : splitCharL c l ≠ [] := by
  induction l with
  | nil => simp [splitCharL]
  | cons x xs _ =>
    unfold splitCharL
    by_cases hx : x = c
    · simp [hx]
    · rw [if_neg hx]
      cases h : splitCharL c xs <;> simp

theorem splitChar_ne_nil (s : String) (c : Char) : splitChar s c ≠ [] := by
  unfold splitChar
  intro h
  exact splitCharL_ne_nil c s.data (List.map_eq_nil_iff.mp h)

theorem freebsdParseBlock_none_of_mem (full l : String)
    (hl : l ∈ splitChar full '\n') (h : ':' ∉ l.data) :
    freebsdParseBlock full = none := by
  unfold freebsdParseBlock
  rw [parseAll_eq_none_of_mem _ l hl ((pargsValue_eq_none_iff l).mpr h)]
  rfl

theorem applyLine_preserve (out : PIDInfo) (l : String) :
    (Windows.applyLine out l).pid = out.pid ∧
    (Windows.applyLine out l).root = out.root ∧
    (Windows.applyLine out l).cwd = out.cwd ∧
    (Windows.applyLine out l).environ = out.environ := by
  unfold Windows.applyLine
  cases splitOnce l ':' with
  | none => exact ⟨rfl, rfl, rfl, rfl⟩
  | some kv =>
    dsimp only
    split
    · exact ⟨rfl, rfl, rfl, rfl⟩
    · split
      · exact ⟨rfl, rfl, rfl, rfl⟩
      · exact ⟨rfl, rfl, rfl, rfl⟩

theorem foldl_applyLine_preserve (comps : List String) (out : PIDInfo) :
    (comps.foldl Windows.applyLine out).pid = out.pid ∧
    (comps.foldl Windows.applyLine out).root = out.root ∧
    (comps.foldl Windows.applyLine out).cwd = out.cwd ∧
    (comps.foldl Windows.applyLine out).environ = out.environ := by
  induction comps generalizing out with
  | nil => exact ⟨rfl, rfl, rfl, rfl⟩
  | cons a rest ih =>
    have h1 := applyLine_preserve out a
    have h2 := ih (Windows.applyLine out a)
    exact ⟨h2.1.trans h1.1, h2.2.1.trans h1.2.1, h2.2.2.1.trans h1.2.2.1,
      h2.2.2.2.trans h1.2.2.2⟩

/-! ### Claim C1 -/

/-- C1 counterexample: on the FreeBSD (diagnostic-utility) strategy a
fully available data source yields a `cmdline` field that is a debug
rendering of the parsed argument vector; its bytes (`[`, `"`) occur
nowhere in the simulated `procstat pargs` output, so the field does not
equal any value present in the data source byte-for-byte. -/
theorem freebsd_fields_not_byte_for_byte :
    Freebsd.new 1234 freebsdEvilSrc =
      FbResult.ok ⟨1234, "/tmp/evil", "N/A", "/tmp", "[\"evil\", \"--flag\"]",
        "[\"PATH=/bin\"]"⟩ ∧
    ¬ ("[\"evil\", \"--flag\"]" : String).data <:+: pargsEvil.data := by
  constructor
  · decide
  · decide

/-- C1 (amended): with a fully available data source, the Linux
(direct-introspection) strategy returns every field byte-for-byte equal
to the corresponding read; the FreeBSD strategy returns `exe`/`cwd`
equal to the last whitespace token of the respective outputs, the
`"N/A"` sentinel for `root`, and the debug-list rendering of the parsed
(colon-split, trimmed, header-dropped) lines for `cmdline`/`environ`. -/
theorem locate_returns_source_fields
    (pid : Nat) (src : LinuxProc) (e r c cm en : String)
    (he : src.exeLink pid = some e) (hr : src.rootLink pid = some r)
    (hc : src.cwdLink pid = some c) (hcm : src.cmdlineFile pid = some cm)
    (hen : src.environFile pid = some en)
    (fsrc : FreebsdProcstat) (o1 o2 o3 o4 exe cwd : String)
    (cl ev : List String)
    (f1 : fsrc.exeOut pid = some o1) (f2 : fsrc.cwdOut pid = some o2)
    (f3 : fsrc.pargsOut pid = some o3) (f4 : fsrc.penvOut pid = some o4)
    (g1 : lastToken o1 = some exe) (g2 : lastToken o2 = some cwd)
    (g3 : freebsdParseBlock o3 = some cl) (g4 : freebsdParseBlock o4 = some ev) :
    Linux.new pid src = some ⟨pid, e, r, c, cm, en⟩ ∧
    Freebsd.new pid fsrc =
      FbResult.ok ⟨pid, exe, "N/A", cwd, rustDebugList cl, rustDebugList ev⟩ := by
  constructor
  · unfold Linux.new
    rw [he, hr, hc, hcm, hen]
  · simp only [Freebsd.new, f1, g1, f2, g2, f3, g3, f4, g4]

/-- C1 witness: the amended statement at the concrete sources. -/
theorem locate_returns_source_fields_witness :
    Linux.new 1234 procA = some ⟨1234, "/tmp/evil", "/", "/tmp", "evil", "PATH=/bin"⟩ ∧
    Freebsd.new 1234 freebsdEvilSrc =
      FbResult.ok ⟨1234, "/tmp/evil", "N/A", "/tmp", rustDebugList ["evil", "--flag"],
        rustDebugList ["PATH=/bin"]⟩ :=
  locate_returns_source_fields 1234 procA "/tmp/evil" "/" "/tmp" "evil" "PATH=/bin"
    rfl rfl rfl rfl rfl freebsdEvilSrc "PID COMM\n1234 /tmp/evil" "PID CWD\n1234 /tmp"
    pargsEvil "h: x\ne: PATH=/bin" "/tmp/evil" "/tmp" ["evil", "--flag"] ["PATH=/bin"]
    rfl rfl rfl rfl (by decide) (by decide) (by decide) (by decide)

/-! ### Claim C2 -/

/-- C2: if any required read (Linux) or any required invocation's exit
status (FreeBSD) fails, the lookup returns no record at all — the Linux
strategy returns `none`, the FreeBSD strategy never reaches the `ok`
constructor.  No partially populated record escapes. -/
theorem lookup_failure_no_partial_record
    (pid : Nat) (src : LinuxProc) (fsrc : FreebsdProcstat) :
    ((src.exeLink pid = none ∨ src.rootLink pid = none ∨ src.cwdLink pid = none ∨
        src.cmdlineFile pid = none ∨ src.environFile pid = none) →
      Linux.new pid src = none) ∧
    ((fsrc.exeOut pid = none ∨ fsrc.cwdOut pid = none ∨ fsrc.pargsOut pid = none ∨
        fsrc.penvOut pid = none) →
      ∀ rec, Freebsd.new pid fsrc ≠ FbResult.ok rec) := by
  constructor
  · intro h
    unfold Linux.new
    repeat' split
    all_goals first
      | rfl
      | (rcases h with h | h | h | h | h <;> simp_all)
  · intro h rec hok
    unfold Freebsd.new at hok
    repeat' split at hok
    all_goals first
      | exact FbResult.noConfusion hok
      | (rcases h with h | h | h | h <;> simp_all)

/-- C2 witness: a failing `cmdline` read on Linux and a failing `pwdx`
invocation on FreeBSD each collapse the lookup. -/
theorem lookup_failure_no_partial_record_witness :
    Linux.new 1234 procFail = none ∧
    Freebsd.new 1234 fbFail ≠ FbResult.ok evilRec :=
  ⟨(lookup_failure_no_partial_record 1234 procFail fbFail).1
      (Or.inr (Or.inr (Or.inr (Or.inl rfl)))),
   (lookup_failure_no_partial_record 1234 procFail fbFail).2
      (Or.inr (Or.inl rfl)) evilRec⟩

/-! ### Claim C3 -/

/-- C3 counterexample: a block whose (only) line has no colon makes the
FreeBSD parser hit `split_once(':').unwrap()` on `None` — modelled by
`none` — i.e. the lookup panics instead of yielding nothing. -/
theorem freebsd_colon_free_line_crashes :
    freebsdParseBlock "PID COMM ARGS" = none := by decide

/-- C3 (amended): the colon-split step itself is total — it yields the
prefix/suffix around the first colon exactly when the line has one —
and the administrative-query (Windows) strategy uses it totally:
a colon line assigns the trimmed prefix/suffix by label, a colon-free
line is skipped.  The diagnostic-utility (FreeBSD) strategy, however,
unwraps the split, so any colon-free line in a block makes the whole
parse panic. -/
theorem colon_split_total_amended :
    (∀ l : String, (splitOnce l ':').isSome ↔ ':' ∈ l.data) ∧
    (∀ pre suf : String, ':' ∉ pre.data →
        splitOnce (pre ++ ":" ++ suf) ':' = some (pre, suf)) ∧
    (∀ out : PIDInfo, ∀ pre suf : String, ':' ∉ pre.data →
        Windows.applyLine out (pre ++ ":" ++ suf) =
          (if trimStr pre = "ExecutablePath" then { out with exe := trimStr suf }
           else if trimStr pre = "CommandLine" then { out with cmdline := trimStr suf }
           else out)) ∧
    (∀ out : PIDInfo, ∀ l : String, ':' ∉ l.data → Windows.applyLine out l = out) ∧
    (∀ full l : String, l ∈ splitChar full '\n' → ':' ∉ l.data →
        freebsdParseBlock full = none) := by
  refine ⟨fun l => splitOnce_isSome l ':', splitOnce_append, ?_, ?_,
    freebsdParseBlock_none_of_mem⟩
  · intro out pre suf h
    unfold Windows.applyLine
    rw [splitOnce_append pre suf h]
  · intro out l h
    unfold Windows.applyLine
    have hs : splitOnce l ':' = none := by
      have := (splitOnce_isSome l ':').not.mpr h
      cases hx : splitOnce l ':'
      · rfl
      · rw [hx] at this
        simp at this
    rw [hs]

/-- C3 witness: the amended statement at concrete lines. -/
theorem colon_split_total_amended_witness :
    splitOnce ("Key" ++ ":" ++ " val") ':' = some ("Key", " val") ∧
    Windows.applyLine (Windows.initRec 9) "NOCOLON" = Windows.initRec 9 ∧
    freebsdParseBlock "a: 1\nNOCOLON" = none :=
  ⟨colon_split_total_amended.2.1 "Key" " val" (by decide),
   colon_split_total_amended.2.2.2.1 (Windows.initRec 9) "NOCOLON" (by decide),
   colon_split_total_amended.2.2.2.2 "a: 1\nNOCOLON" "NOCOLON" (by decide) (by decide)⟩

/-! ### Claim C4 -/

/-- C4: on a block of N `label: value` lines (every line carries a
colon; the split never yields fewer than one line), the FreeBSD parser
returns exactly the parsed values of lines 1..N−1 — line 0 is dropped
as a header — and a one-line block yields the empty data set, not an
error. -/
theorem header_discard_exact (full : String)
    (hcol : ∀ l ∈ splitChar full '\n', ':' ∈ l.data) :
    freebsdParseBlock full =
      some (((splitChar full '\n').drop 1).map lineValue) ∧
    ((splitChar full '\n').length = 1 → freebsdParseBlock full = some []) := by
  have hmap : parseAll (splitChar full '\n') =
      some ((splitChar full '\n').map lineValue) :=
    parseAll_eq_map _ (fun l hl => (pargsValue_isSome_iff l).mpr (hcol l hl))
  have hne := splitChar_ne_nil full '\n'
  have hmain : freebsdParseBlock full =
      some (((splitChar full '\n').drop 1).map lineValue) := by
    unfold freebsdParseBlock
    rw [hmap]
    cases hsp : splitChar full '\n' with
    | nil => exact absurd hsp hne
    | cons a rest => simp
  refine ⟨hmain, fun hlen => ?_⟩
  rw [hmain]
  cases hsp : splitChar full '\n' with
  | nil => exact absurd hsp hne
  | cons a rest =>
    rw [hsp] at hlen
    simp at hlen
    simp [hsp, hlen]

/-- C4 witness: a three-line block keeps exactly the two data lines; a
one-line block yields the empty data set. -/
theorem header_discard_exact_witness :
    freebsdParseBlock pargsEvil = some ["evil", "--flag"] ∧
    freebsdParseBlock "lone: header" = some [] :=
  ⟨(header_discard_exact pargsEvil (by decide)).1,
   (header_discard_exact "lone: header" (by decide)).2 (by decide)⟩

/-! ### Claim C5 -/

/-- C5 counterexample: on the Windows strategy, with the move failing,
quarantine spawns exactly one command — the `move` — so the
permission-stripping step is never attempted, contradicting "both steps
are always attempted ... with the permission step executed even when
the move step fails" for every record. -/
theorem windows_quarantine_skips_permission_step :
    Windows.quarantine evilRec (fun _ => false) =
      { invoked := [⟨"move", ["/tmp/evil", ".\\quarantine"]⟩]
        errors := ["Failed to move exe /tmp/evil"]
        printed := ["Please revoke all execution access, or get this thing out of here"] } := by
  decide

/-- C5 (amended): on the Linux strategy quarantine always spawns both
the move and the chmod (the chmod even when the move failed), and each
step's failure is reported by its own distinct diagnostic; on the
Windows strategy only the move is attempted and the permission step is
replaced by a printed advisory. -/
theorem quarantine_steps_amended (info : PIDInfo) (run : Cmd → Bool) :
    (Linux.quarantine info run).invoked = [Linux.mvCmd info, Linux.chmodCmd info] ∧
    ("Failed to move exe " ++ info.exe) ≠ ("Failed to chmod exe " ++ info.exe) ∧
    (run (Linux.mvCmd info) = false → run (Linux.chmodCmd info) = true →
        (Linux.quarantine info run).errors = ["Failed to move exe " ++ info.exe]) ∧
    (run (Linux.mvCmd info) = true → run (Linux.chmodCmd info) = false →
        (Linux.quarantine info run).errors = ["Failed to chmod exe " ++ info.exe]) ∧
    (run (Linux.mvCmd info) = false → run (Linux.chmodCmd info) = false →
        (Linux.quarantine info run).errors =
          ["Failed to move exe " ++ info.exe, "Failed to chmod exe " ++ info.exe]) ∧
    (Windows.quarantine info run).invoked = [Windows.mvCmd info] ∧
    (Windows.quarantine info run).printed =
      ["Please revoke all execution access, or get this thing out of here"] := by
  refine ⟨rfl, ?_, ?_, ?_, ?_, rfl, rfl⟩
  · intro hEq
    have hlen := congrArg String.length hEq
    rw [String.length_append, String.length_append] at hlen
    have h1 : ("Failed to move exe " : String).length = 19 := rfl
    have h2 : ("Failed to chmod exe " : String).length = 20 := rfl
    rw [h1, h2] at hlen
    omega
  · intro h1 h2
    simp [Linux.quarantine, h1, h2]
  · intro h1 h2
    simp [Linux.quarantine, h1, h2]
  · intro h1 h2
    simp [Linux.quarantine, h1, h2]

/-- C5 witness: the amended statement with a concrete failing move. -/
theorem quarantine_steps_amended_witness :
    (Linux.quarantine evilRec runMvFails).errors = ["Failed to move exe /tmp/evil"] :=
  (quarantine_steps_amended evilRec runMvFails).2.2.1 (by decide) (by decide)

/-! ### Claim C6 -/

/-- C6: terminate spawns the forced-kill primitive addressed to the pid
on both strategies, but on the Windows strategy the failure diagnostic
interpolates `self.exe` into a message whose text says "PID": at the
failing input it logs `Failed to terminate PID /tmp/evil`, not the
pid-naming diagnostic the claim (and the message's own text) promise. -/
theorem windows_terminate_diag_names_exe :
    (Linux.terminate evilRec (fun _ => false)).errors =
      ["Failed to terminate PID 1234"] ∧
    (Windows.terminate evilRec (fun _ => false)).invoked =
      [⟨"taskkill", ["/PID", "1234", "/F"]⟩] ∧
    (Windows.terminate evilRec (fun _ => false)).errors =
      ["Failed to terminate PID /tmp/evil"] ∧
    ("Failed to terminate PID /tmp/evil" : String) ≠ "Failed to terminate PID 1234" := by
  refine ⟨by decide, by decide, by decide, by decide⟩

/-! ### Claim C7 -/

/-- C7: facets a strategy cannot obtain are always the `"N/A"` sentinel:
every record the FreeBSD strategy returns has `root = "N/A"`, and every
record the Windows strategy returns has `root`, `cwd` and `environ`
equal to `"N/A"` — the fold over the query output only ever overwrites
`exe` and `cmdline`, ignoring unrecognized labels. -/
theorem unavailable_fields_sentinel
    (pid : Nat) (fsrc : FreebsdProcstat) (wsrc : WinQuery) :
    (∀ rec, Freebsd.new pid fsrc = FbResult.ok rec → rec.root = "N/A") ∧
    (∀ rec, Windows.new pid wsrc = some rec →
        rec.root = "N/A" ∧ rec.cwd = "N/A" ∧ rec.environ = "N/A") := by
  constructor
  · intro rec hok
    unfold Freebsd.new at hok
    repeat' split at hok
    all_goals first
      | exact FbResult.noConfusion hok
      | (cases hok; rfl)
  · intro rec h
    unfold Windows.new at h
    cases hq : wsrc.queryOut pid with
    | none => rw [hq] at h; cases h
    | some s =>
      rw [hq] at h
      have hp := foldl_applyLine_preserve (splitSeq s "\r\n") (Windows.initRec pid)
      cases h
      exact ⟨hp.2.1, hp.2.2.1, hp.2.2.2⟩

/-- C7 witness: the sentinel facts at concrete sources (the records are
exactly what the two lookups return there). -/
theorem unavailable_fields_sentinel_witness :
    ((⟨1234, "/tmp/evil", "N/A", "/tmp", rustDebugList ["evil", "--flag"],
        rustDebugList ["PATH=/bin"]⟩ : PIDInfo).root = "N/A") ∧
    ((⟨7, "C:\\x.exe", "N/A", "N/A", "x /c", "N/A"⟩ : PIDInfo).root = "N/A" ∧
     (⟨7, "C:\\x.exe", "N/A", "N/A", "x /c", "N/A"⟩ : PIDInfo).cwd = "N/A" ∧
     (⟨7, "C:\\x.exe", "N/A", "N/A", "x /c", "N/A"⟩ : PIDInfo).environ = "N/A") :=
  ⟨(unavailable_fields_sentinel 1234 freebsdEvilSrc winSrcA).1 _ (by decide),
   (unavailable_fields_sentinel 7 freebsdEvilSrc winSrcA).2 _ (by decide)⟩

/-! ### Claim C8 -/

/-- C8: the `Display` rendering is exactly the five fields pid, exe,
root, cwd, cmdline in that order separated by `" | "`, and it does not
depend on the `environ` field at all. -/
theorem display_five_fields_no_environ (p : Nat) (e r c cm en en2 : String) :
    PIDInfo.display ⟨p, e, r, c, cm, en⟩ =
      toString p ++ " | " ++ e ++ " | " ++ r ++ " | " ++ c ++ " | " ++ cm ∧
    PIDInfo.display ⟨p, e, r, c, cm, en⟩ = PIDInfo.display ⟨p, e, r, c, cm, en2⟩ :=
  ⟨rfl, rfl⟩

/-! ### Claim C9 -/

/-- C9: the Linux lookup is deterministic in its data source — two calls
whose five reads return the same contents for the pid return the same
result. -/
theorem locate_deterministic (pid : Nat) (src1 src2 : LinuxProc)
    (he : src1.exeLink pid = src2.exeLink pid)
    (hr : src1.rootLink pid = src2.rootLink pid)
    (hc : src1.cwdLink pid = src2.cwdLink pid)
    (hcm : src1.cmdlineFile pid = src2.cmdlineFile pid)
    (hen : src1.environFile pid = src2.environFile pid) :
    Linux.new pid src1 = Linux.new pid src2 := by
  unfold Linux.new
  rw [he, hr, hc, hcm, hen]

/-- C9 witness: two syntactically different sources with identical
contents at pid 1234 give identical records. -/
theorem locate_deterministic_witness :
    Linux.new 1234 procA = Linux.new 1234 procB :=
  locate_deterministic 1234 procA procB (by decide) (by decide) (by decide)
    (by decide) (by decide)

/-! ### Claim C10 -/

/-- C10: on all three strategies, a successfully returned record's `pid`
field is exactly the pid argument of the lookup. -/
theorem record_pid_matches_argument
    (pid : Nat) (lsrc : LinuxProc) (fsrc : FreebsdProcstat) (wsrc : WinQuery) :
    (∀ rec, Linux.new pid lsrc = some rec → rec.pid = pid) ∧
    (∀ rec, Freebsd.new pid fsrc = FbResult.ok rec → rec.pid = pid) ∧
    (∀ rec, Windows.new pid wsrc = some rec → rec.pid = pid) := by
  refine ⟨?_, ?_, ?_⟩
  · intro rec h
    unfold Linux.new at h
    repeat' split at h
    all_goals first
      | (cases h; rfl)
      | cases h
  · intro rec hok
    unfold Freebsd.new at hok
    repeat' split at hok
    all_goals first
      | exact FbResult.noConfusion hok
      | (cases hok; rfl)
  · intro rec h
    unfold Windows.new at h
    cases hq : wsrc.queryOut pid with
    | none => rw [hq] at h; cases h
    | some s =>
      rw [hq] at h
      have hp := foldl_applyLine_preserve (splitSeq s "\r\n") (Windows.initRec pid)
      cases h
      exact hp.1

/-- C10 witness: the pid-preservation at the concrete sources of the
three strategies. -/
theorem record_pid_matches_argument_witness :
    (⟨1234, "/tmp/evil", "/", "/tmp", "evil", "PATH=/bin"⟩ : PIDInfo).pid = 1234 ∧
    (⟨1234, "/tmp/evil", "N/A", "/tmp", rustDebugList ["evil", "--flag"],
        rustDebugList ["PATH=/bin"]⟩ : PIDInfo).pid = 1234 ∧
    (⟨7, "C:\\x.exe", "N/A", "N/A", "x /c", "N/A"⟩ : PIDInfo).pid = 7 :=
  ⟨(record_pid_matches_argument 1234 procA freebsdEvilSrc winSrcA).1 _ (by decide),
   (record_pid_matches_argument 1234 procA freebsdEvilSrc winSrcA).2.1 _ (by decide),
   (record_pid_matches_argument 7 procA freebsdEvilSrc winSrcA).2.2 _ (by decide)⟩

end BlueTeam
